import Mathlib

/-!
Shallow embedding of the media-toolkit VAD core:
  * `src/projects/media-speech-detection-web/src/index.ts` (class VADProcessor)
  * `src/projects/media-buffer-speech/src/index.ts` (bufferSpeech)
Floating-point numbers of the source are modelled as rationals, Float32Array
frame payloads as an abstract type `F` (for the state machine) or `List Q`
of samples (for the classifier context path), and wall-clock times
(Date.now(), milliseconds) as rationals passed explicitly.
-/

/-- Result of `classifySpeechState` in the source. -/
inductive SpeechState
  | speech
  | intermediate
  | nonSpeech
deriving DecidableEq, Repr

/-- The `vadState` field of `VADProcessor` in the source. -/
inductive VadState
  | silent
  | detecting
  | speaking
  | intermediate
deriving DecidableEq, Repr

/-- Events fired through the `VADEventHandlers` callbacks of the source
    (`onSpeechStart`, `onSpeechEnd`, `onMisfire`, `onError`; `onDebugLog`
    is diagnostic only and not modelled). -/
inductive VADEvent
  | speechStart
  | speechEnd
  | misfire
  | error
deriving DecidableEq, Repr

/-- JavaScript `Math.round`: round half toward positive infinity. -/
def jsRound (q : ℚ) : ℤ := Int.floor (q + 1/2)

/-- The standard clamp function, used by the spec to describe the
    `negativeThreshold` computation. -/
def clamp (x lo hi : ℚ) : ℚ := max lo (min x hi)

/-- The optional configuration fields of `VADConfig` in the source
    (`threshold`, `minSpeechDurationMs`, `redemptionDurationMs`,
    `lookBackDurationMs`); `none` selects the default. -/
structure VADOptions where
  threshold : Option ℚ
  minSpeechDurationMs : Option ℚ
  redemptionDurationMs : Option ℚ
  lookBackDurationMs : Option ℚ
deriving DecidableEq, Repr

/-- Internal configuration of `VADProcessor` after the constructor has
    converted the options (source lines 185-189). -/
structure VADConfig where
  threshold : ℚ
  negativeThreshold : ℚ
  minSpeechFrames : ℕ
  redemptionFrames : ℕ
  lookBackFrames : ℕ
deriving DecidableEq, Repr

/-- The clamped threshold computed by the constructor:
    `Math.max(0.01, Math.min(0.99, options.threshold ?? 0.5))`. -/
def vadThr (o : VADOptions) : ℚ :=
  max (1/100) (min (99/100) (o.threshold.getD (1/2)))

/-- The constructor of `VADProcessor`, configuration part (source lines
    185-189); `vadThr` is the clamped threshold. -/
def mkVADConfig (o : VADOptions) : VADConfig :=
  { threshold := vadThr o
    negativeThreshold := max (1/100) (min (vadThr o - 1/100) (vadThr o - 15/100))
    minSpeechFrames := (max 1 (jsRound ((o.minSpeechDurationMs.getD 160) / 32))).toNat
    redemptionFrames := (max 1 (jsRound ((o.redemptionDurationMs.getD 400) / 32))).toNat
    lookBackFrames := (max 0 (jsRound ((o.lookBackDurationMs.getD 384) / 32))).toNat }

/-- Facts about a configuration that every configuration produced by the
    constructor satisfies (proved in `mkVADConfig_wf`). -/
def VADConfig.WF (cfg : VADConfig) : Prop :=
  0 < cfg.negativeThreshold ∧ cfg.negativeThreshold ≤ cfg.threshold ∧
    1 ≤ cfg.minSpeechFrames ∧ 1 ≤ cfg.redemptionFrames

/-- The complete mutable state of a `VADProcessor` instance (source lines
    154-168).  `session : Bool` records whether the ONNX session is present,
    `modelState` is the recurrent model tensor flattened to a list,
    `context` the 64-sample context window, frames are drawn from `F`. -/
structure VADProcessor (F : Type) where
  session : Bool
  modelState : Option (List ℚ)
  context : List ℚ
  audioBuffer : List ℚ
  speechBuffer : List F
  lookBackBuffer : List F
  vadState : VadState
  speechFrameCount : ℕ
  redemptionCounter : ℕ
  speechStartTime : ℚ
  frameIndex : ℕ
deriving DecidableEq, Repr

/-- Field initializers of the `VADProcessor` class (before `initialize`):
    no session, null model state, zeroed 64-sample context, empty buffers,
    `silent` state, zeroed counters. -/
def construct (F : Type) : VADProcessor F :=
  { session := false
    modelState := none
    context := List.replicate 64 0
    audioBuffer := []
    speechBuffer := []
    lookBackBuffer := []
    vadState := VadState.silent
    speechFrameCount := 0
    redemptionCounter := 0
    speechStartTime := 0
    frameIndex := 0 }

/-- `VADProcessor.resetState` (source lines 260-272): canonical zero model
    state (2*1*128 zeros), zeroed context, `silent` state, zeroed counters,
    empty buffers. -/
def resetState {F : Type} (s : VADProcessor F) : VADProcessor F :=
  { s with
    modelState := some (List.replicate 256 0)
    context := List.replicate 64 0
    vadState := VadState.silent
    speechFrameCount := 0
    redemptionCounter := 0
    speechStartTime := 0
    frameIndex := 0
    audioBuffer := []
    speechBuffer := []
    lookBackBuffer := [] }

/-- `VADProcessor.initialize` (source lines 192-201): early return when a
    session already exists, otherwise create the session and reset state
    (successful model load modelled as `session := true`). -/
def initializeVAD {F : Type} (s : VADProcessor F) : VADProcessor F :=
  if s.session then s else resetState { s with session := true }

/-- `VADProcessor.destroy` (source lines 251-258): drop the session and
    model state, empty the audio/speech/lookback buffers, zero the context.
    The state-machine fields are left untouched. -/
def destroy {F : Type} (s : VADProcessor F) : VADProcessor F :=
  { s with
    session := false
    modelState := none
    audioBuffer := []
    speechBuffer := []
    lookBackBuffer := []
    context := List.replicate 64 0 }

/-- Last `n` elements of a list, as computed by `Array.prototype.slice(-n)`
    and by the lookback-buffer push/shift discipline. -/
def takeLast {α : Type} (n : ℕ) (l : List α) : List α := l.drop (l.length - n)

/-- `VADProcessor.updateLookBackBuffer` (source lines 274-285): early
    return when lookback is disabled; push a copy of the frame only while
    `silent`, evicting the oldest entry beyond capacity. -/
def updateLookBackBuffer {F : Type} (cfg : VADConfig) (frame : F)
    (s : VADProcessor F) : VADProcessor F :=
  if cfg.lookBackFrames = 0 then s
  else if s.vadState = VadState.silent then
    let lb := s.lookBackBuffer ++ [frame]
    { s with lookBackBuffer := if cfg.lookBackFrames < lb.length then lb.drop 1 else lb }
  else s

/-- One lookback push, as a standalone function (capacity first). -/
def lbPush {F : Type} (cap : ℕ) (lb : List F) (frame : F) : List F :=
  if cap = 0 then lb
  else
    let lb2 := lb ++ [frame]
    if cap < lb2.length then lb2.drop 1 else lb2

/-- Folding `lbPush` over a list of frames. -/
def lbAfter {F : Type} (cap : ℕ) (lb : List F) (frames : List F) : List F :=
  frames.foldl (lbPush cap) lb

/-- `VADProcessor.classifySpeechState` (source lines 398-406). -/
def classifySpeechState (cfg : VADConfig) (probability : ℚ) : SpeechState :=
  if cfg.threshold ≤ probability then SpeechState.speech
  else if cfg.negativeThreshold ≤ probability then SpeechState.intermediate
  else SpeechState.nonSpeech

/-- `VADProcessor.resetSpeechState` (source lines 419-424). -/
def resetSpeechState {F : Type} (s : VADProcessor F) : VADProcessor F :=
  { s with
    vadState := VadState.silent
    speechFrameCount := 0
    redemptionCounter := 0
    speechBuffer := [] }

/-- `VADProcessor.endSpeechSegment` (source lines 408-417): measure the
    wall-clock speaking duration, reset the speech state, then fire either
    `onSpeechEnd` (with an empty payload) or `onMisfire`. -/
def endSpeechSegment {F : Type} (cfg : VADConfig) (now : ℚ)
    (s : VADProcessor F) : VADProcessor F × List VADEvent :=
  let speechDurationSeconds := (now - s.speechStartTime) / 1000
  let s1 := resetSpeechState s
  if (cfg.minSpeechFrames * 512 : ℚ) / 16000 ≤ speechDurationSeconds then
    (s1, [VADEvent.speechEnd])
  else (s1, [VADEvent.misfire])

/-- `VADProcessor.handleSpeechDetection` (source lines 322-396): the VAD
    state-machine transition for one frame, given the probability returned
    by `detectSpeech`.  Returns the new state, the output chunks pushed to
    `outputChunks`, and the events fired. -/
def handleSpeechDetection {F : Type} (cfg : VADConfig) (now : ℚ)
    (probability : ℚ) (frame : F) (s : VADProcessor F) :
    VADProcessor F × List F × List VADEvent :=
  let speechState := classifySpeechState cfg probability
  if s.vadState = VadState.silent then
    if speechState = SpeechState.speech then
      ({ s with vadState := VadState.detecting, speechFrameCount := 1,
                speechBuffer := [frame] }, [], [])
    else (s, [], [])
  else if s.vadState = VadState.detecting then
    if speechState = SpeechState.speech then
      let count := s.speechFrameCount + 1
      let sb := s.speechBuffer ++ [frame]
      if cfg.minSpeechFrames ≤ count then
        ({ s with vadState := VadState.speaking, speechStartTime := now,
                  redemptionCounter := 0, speechFrameCount := count,
                  speechBuffer := [], lookBackBuffer := [] },
         s.lookBackBuffer ++ sb, [VADEvent.speechStart])
      else
        ({ s with speechFrameCount := count, speechBuffer := sb }, [], [])
    else if speechState = SpeechState.nonSpeech then
      ({ s with vadState := VadState.silent, speechFrameCount := 0,
                speechBuffer := [] }, [], [])
    else (s, [], [])
  else if s.vadState = VadState.speaking then
    if speechState = SpeechState.nonSpeech then
      ({ s with vadState := VadState.intermediate, redemptionCounter := 1 }, [], [])
    else if speechState = SpeechState.intermediate then
      ({ s with vadState := VadState.intermediate,
                redemptionCounter := max 1 s.redemptionCounter }, [], [])
    else
      ({ s with redemptionCounter := 0 }, [frame], [])
  else
    if speechState = SpeechState.speech then
      ({ s with vadState := VadState.speaking, redemptionCounter := 0 }, [frame], [])
    else
      let rc := s.redemptionCounter + 1
      if cfg.redemptionFrames ≤ rc then
        let r := endSpeechSegment cfg now { s with redemptionCounter := rc }
        (r.1, [frame], r.2)
      else
        ({ s with redemptionCounter := rc }, [frame], [])

/-- `VADProcessor.detectSpeech` (source lines 287-320).  The classifier
    call (`session.run`) is abstracted as `classify contextualFrame state`,
    returning `none` on a thrown exception.  On failure the context is still
    updated and probability 0 returned, with one error report. -/
def detectSpeech {F : Type} (classify : List ℚ → List ℚ → Option (ℚ × List ℚ))
    (audioFrame : List ℚ) (s : VADProcessor F) :
    VADProcessor F × ℚ × List VADEvent :=
  match s.session, s.modelState with
  | true, some st =>
    let contextualFrame := s.context ++ audioFrame
    match classify contextualFrame st with
    | some r =>
        ({ s with modelState := some r.2,
                  context := takeLast 64 contextualFrame }, r.1, [])
    | none =>
        ({ s with context := takeLast 64 contextualFrame }, 0, [VADEvent.error])
  | _, _ => (s, 0, [])

/-- One iteration of the per-frame loop of `VADProcessor.processChunk`
    (source lines 210-229) with the classifier's answer supplied as the
    probability: lookback update, then the state-machine transition. -/
def stepFrame {F : Type} (cfg : VADConfig) (inp : ℚ × ℚ × F)
    (s : VADProcessor F) : VADProcessor F × List F × List VADEvent :=
  let s1 := updateLookBackBuffer cfg inp.2.2 s
  handleSpeechDetection cfg inp.2.1 inp.1 inp.2.2 s1

/-- One iteration of the per-frame loop of `VADProcessor.processChunk`
    with the classifier call included (frames are sample lists here). -/
def processFrame (cfg : VADConfig)
    (classify : List ℚ → List ℚ → Option (ℚ × List ℚ)) (now : ℚ)
    (frame : List ℚ) (s : VADProcessor (List ℚ)) :
    VADProcessor (List ℚ) × List (List ℚ) × List VADEvent :=
  let s1 := updateLookBackBuffer cfg frame s
  let d := detectSpeech classify frame s1
  let h := handleSpeechDetection cfg now d.2.1 frame d.1
  (h.1, h.2.1, d.2.2 ++ h.2.2)

/-- Iterated `stepFrame` over a list of inputs
    `(probability, wall-clock time, frame)`, concatenating the output
    chunks and the fired events in order. -/
def runFrames {F : Type} (cfg : VADConfig) :
    List (ℚ × ℚ × F) → VADProcessor F → VADProcessor F × List F × List VADEvent
  | [], s => (s, [], [])
  | i :: rest, s =>
    let r1 := stepFrame cfg i s
    let r2 := runFrames cfg rest r1.1
    (r2.1, r1.2.1 ++ r2.2.1, r1.2.2 ++ r2.2.2)

/-- `VADProcessor.finalize` (source lines 234-249): while mid-speech,
    measure the wall-clock speaking duration, reset, and fire either
    `onSpeechEnd` or `onMisfire`; output chunks are always empty. -/
def finalizeVAD {F : Type} (cfg : VADConfig) (now : ℚ) (s : VADProcessor F) :
    VADProcessor F × List F × List VADEvent :=
  if s.vadState = VadState.speaking ∨ s.vadState = VadState.intermediate then
    let r := endSpeechSegment cfg now s
    (r.1, [], r.2)
  else (s, [], [])

/-- The frame of a `runFrames` input triple. -/
def frameOf {F : Type} (i : ℚ × ℚ × F) : F := i.2.2

/-- A freshly constructed and initialized engine. -/
def initVAD (F : Type) : VADProcessor F := initializeVAD (construct F)

/-!
Model of `bufferSpeech` from `src/projects/media-buffer-speech/src/index.ts`.
The `setTimeout`-based debounce timer is modelled as an explicit armed
deadline: an armed timer fires once its deadline has passed, which in the
single-threaded stream happens before any later arrival is processed.
-/

/-- Events fired by the pause buffer: `onBuffered` before a release and
    `onError` on overflow (`onDebugLog` is diagnostic only). -/
inductive BufEvent
  | buffered
  | error
deriving DecidableEq, Repr

/-- Configuration of `bufferSpeech` after conversion to milliseconds
    (source lines 58-59). -/
structure BufConfig where
  durationMs : ℚ
  maxBufferMs : ℚ
deriving DecidableEq, Repr

/-- `bufferSpeech` option conversion:
    `durationMs = (durationSeconds ?? 2.0) * 1000`,
    `maxBufferMs = (maxBufferSeconds ?? 60.0) * 1000`. -/
def mkBufConfig (durationSeconds maxBufferSeconds : Option ℚ) : BufConfig :=
  { durationMs := (durationSeconds.getD 2) * 1000
    maxBufferMs := (maxBufferSeconds.getD 60) * 1000 }

/-- The closure state of `bufferSpeech` (source lines 61-64): the chunk
    buffer, the armed release-timer deadline (if any), the buffer start
    timestamp (if any), and the chunk counter. -/
structure BufState (T : Type) where
  buffer : List T
  pauseTimer : Option ℚ
  bufferStartTime : Option ℚ
  chunkCount : ℕ
deriving DecidableEq, Repr

/-- The empty initial closure state of `bufferSpeech`. -/
def initBuf (T : Type) : BufState T :=
  { buffer := [], pauseTimer := none, bufferStartTime := none, chunkCount := 0 }

/-- `releaseBuffer` (source lines 76-98): with a non-empty buffer fire
    `onBuffered`, enqueue a copy of the buffer downstream, and clear the
    buffer state; in all cases cancel any pending timer. -/
def releaseBuffer {T : Type} (s : BufState T) :
    BufState T × List (List T) × List BufEvent :=
  if 0 < s.buffer.length then
    ({ buffer := [], pauseTimer := none, bufferStartTime := none, chunkCount := 0 },
     [s.buffer], [BufEvent.buffered])
  else ({ s with pauseTimer := none }, [], [])

/-- The `transform` callback of `bufferSpeech` (source lines 114-137) at
    wall-clock time `now`: record the start timestamp on the first chunk,
    append the chunk, run `checkBufferOverflow` (source lines 100-107),
    and re-arm the release timer `durationMs` from now. -/
def bufTransform {T : Type} (cfg : BufConfig) (now : ℚ) (chunk : T)
    (s : BufState T) : BufState T × List BufEvent :=
  let start := s.bufferStartTime.getD now
  ({ buffer := s.buffer ++ [chunk]
     pauseTimer := some (now + cfg.durationMs)
     bufferStartTime := some start
     chunkCount := s.chunkCount + 1 },
   if cfg.maxBufferMs < now - start then [BufEvent.error] else [])

/-- Processing of one arrival at time `arr.1`: an armed timer whose
    deadline has already passed fires (releasing the buffer) before the
    new chunk is handled by `transform`. -/
def bufStep {T : Type} (cfg : BufConfig) (s : BufState T) (arr : ℚ × T) :
    BufState T × List (List T) × List BufEvent :=
  let fired :=
    match s.pauseTimer with
    | some d => if d ≤ arr.1 then releaseBuffer s else (s, [], [])
    | none => (s, [], [])
  let t := bufTransform cfg arr.1 arr.2 fired.1
  (t.1, fired.2.1, fired.2.2 ++ t.2)

/-- Iterated `bufStep` over a list of timed arrivals. -/
def runBuf {T : Type} (cfg : BufConfig) :
    List (ℚ × T) → BufState T → BufState T × List (List T) × List BufEvent
  | [], s => (s, [], [])
  | a :: rest, s =>
    let r1 := bufStep cfg s a
    let r2 := runBuf cfg rest r1.1
    (r2.1, r1.2.1 ++ r2.2.1, r1.2.2 ++ r2.2.2)

/-- A quiet gap up to time `now`: the armed timer fires when its deadline
    has passed without being superseded by a new arrival. -/
def bufEnd {T : Type} (now : ℚ) (s : BufState T) :
    BufState T × List (List T) × List BufEvent :=
  match s.pauseTimer with
  | some d => if d ≤ now then releaseBuffer s else (s, [], [])
  | none => (s, [], [])

/-- The `flush` callback of `bufferSpeech` (source lines 139-143): release
    any buffered content on stream end. -/
def bufFlush {T : Type} (s : BufState T) :
    BufState T × List (List T) × List BufEvent :=
  releaseBuffer s

/-- Boolean check that each arrival comes strictly within `dur` of the
    previous time (`prev` is the time of the preceding arrival). -/
def gapsOk {T : Type} (dur : ℚ) : ℚ → List (ℚ × T) → Bool
  | _, [] => true
  | prev, a :: rest => decide (a.1 - prev < dur) && gapsOk dur a.1 rest

/-- The overflow errors produced over a list of arrivals, given the buffer
    start timestamp. -/
def errsFor {T : Type} (cfg : BufConfig) (start : ℚ) (arrs : List (ℚ × T)) :
    List BufEvent :=
  arrs.filterMap (fun a => if cfg.maxBufferMs < a.1 - start then some BufEvent.error else none)

/-- The time of the last arrival, defaulting to `t0`. -/
def lastTime {T : Type} (t0 : ℚ) (arrs : List (ℚ × T)) : ℚ :=
  arrs.foldl (fun _ a => a.1) t0

/-!
Helper lemmas about the embedding, shared by the claim theorems.
-/

theorem vadThr_lb (o : VADOptions) : (1:ℚ)/100 ≤ vadThr o := le_max_left _ _

theorem mkVADConfig_wf (o : VADOptions) : (mkVADConfig o).WF := by
  refine ⟨?_, ?_, ?_, ?_⟩
  · show (0:ℚ) < max (1/100) (min (vadThr o - 1/100) (vadThr o - 15/100))
    exact lt_of_lt_of_le (by norm_num) (le_max_left _ _)
  · show max (1/100) (min (vadThr o - 1/100) (vadThr o - 15/100)) ≤ vadThr o
    refine max_le (le_trans (by norm_num) (vadThr_lb o)) ?_
    exact le_trans (min_le_left _ _) (sub_le_self _ (by norm_num))
  · show 1 ≤ (max 1 (jsRound ((o.minSpeechDurationMs.getD 160) / 32))).toNat
    generalize jsRound ((o.minSpeechDurationMs.getD 160) / 32) = k
    by_cases hk : (1:ℤ) ≤ k
    · rw [max_eq_right hk]
      omega
    · rw [max_eq_left (by linarith)]
      omega
  · show 1 ≤ (max 1 (jsRound ((o.redemptionDurationMs.getD 400) / 32))).toNat
    generalize jsRound ((o.redemptionDurationMs.getD 400) / 32) = k
    by_cases hk : (1:ℤ) ≤ k
    · rw [max_eq_right hk]
      omega
    · rw [max_eq_left (by linarith)]
      omega

theorem classify_speech (cfg : VADConfig) (p : ℚ) (h : cfg.threshold ≤ p) :
    classifySpeechState cfg p = SpeechState.speech := by
  simp [classifySpeechState, h]

theorem classify_nonSpeech (cfg : VADConfig) (p : ℚ)
    (h : p < cfg.negativeThreshold) (hle : cfg.negativeThreshold ≤ cfg.threshold) :
    classifySpeechState cfg p = SpeechState.nonSpeech := by
  have h1 : ¬ cfg.threshold ≤ p := by linarith
  have h2 : ¬ cfg.negativeThreshold ≤ p := not_le.mpr h
  simp [classifySpeechState, h1, h2]

theorem classify_intermediate (cfg : VADConfig) (p : ℚ)
    (h1 : cfg.negativeThreshold ≤ p) (h2 : p < cfg.threshold) :
    classifySpeechState cfg p = SpeechState.intermediate := by
  have h3 : ¬ cfg.threshold ≤ p := not_le.mpr h2
  simp [classifySpeechState, h3, h1]

theorem classify_ne_speech (cfg : VADConfig) (p : ℚ) (h : p < cfg.threshold) :
    classifySpeechState cfg p ≠ SpeechState.speech := by
  have h3 : ¬ cfg.threshold ≤ p := not_le.mpr h
  simp [classifySpeechState, h3]
  split <;> simp

theorem length_takeLast {α : Type} (n : ℕ) (l : List α) :
    (takeLast n l).length = min n l.length := by
  simp [takeLast, List.length_drop]
  omega

theorem takeLast_of_le {α : Type} (n : ℕ) (l : List α) (h : l.length ≤ n) :
    takeLast n l = l := by
  have h0 : l.length - n = 0 := by omega
  simp [takeLast, h0]

theorem takeLast_nil {α : Type} (n : ℕ) : takeLast n ([] : List α) = [] := by
  simp [takeLast]

theorem takeLast_append_takeLast {α : Type} (n : ℕ) (l r : List α) :
    takeLast n (takeLast n l ++ r) = takeLast n (l ++ r) := by
  unfold takeLast
  rw [List.drop_append_eq_append_drop, List.drop_append_eq_append_drop,
    List.drop_drop]
  congr 1
  · congr 1
    simp [List.length_append, List.length_drop]
    omega
  · congr 1
    simp [List.length_append, List.length_drop]
    omega

theorem takeLast_append_singleton {α : Type} (n : ℕ) (l : List α) (a : α)
    (h : 1 ≤ n) : takeLast n (l ++ [a]) = takeLast (n - 1) l ++ [a] := by
  unfold takeLast
  rw [List.drop_append_eq_append_drop]
  have h2 : l.length + 1 - n - l.length = 0 := by omega
  congr 1
  · congr 1
    simp
    omega
  · simp [h2]

theorem lbPush_eq {F : Type} (cap : ℕ) (x : List F) (f : F)
    (hcap : cap ≠ 0) (h : x.length ≤ cap) :
    lbPush cap x f = takeLast cap (x ++ [f]) := by
  simp only [lbPush, takeLast, if_neg hcap, List.length_append,
    List.length_singleton]
  by_cases h2 : cap < x.length + 1
  · have h3 : x.length + 1 - cap = 1 := by omega
    rw [if_pos h2, h3]
  · have h3 : x.length + 1 - cap = 0 := by omega
    rw [if_neg h2, h3, List.drop_zero]

theorem lbPush_takeLast {F : Type} (cap : ℕ) (l : List F) (f : F) :
    lbPush cap (takeLast cap l) f = takeLast cap (l ++ [f]) := by
  by_cases hcap : cap = 0
  · subst hcap
    have h1 : takeLast 0 l = [] := by
      simp [takeLast, List.drop_length]
    have h2 : takeLast 0 (l ++ [f]) = [] := by
      apply List.drop_eq_nil_of_le
      simp
    rw [h1, h2, lbPush]
    simp
  · rw [lbPush_eq cap _ f hcap (by rw [length_takeLast]; omega),
      takeLast_append_takeLast]

theorem lbAfter_takeLast {F : Type} (cap : ℕ) (fs : List F) :
    ∀ l : List F, lbAfter cap (takeLast cap l) fs = takeLast cap (l ++ fs) := by
  induction fs with
  | nil => intro l; simp [lbAfter]
  | cons f fs ih =>
    intro l
    show lbAfter cap (lbPush cap (takeLast cap l) f) fs = _
    rw [lbPush_takeLast, ih (l ++ [f])]
    simp

theorem lbAfter_nil_start {F : Type} (cap : ℕ) (fs : List F) :
    lbAfter cap [] fs = takeLast cap fs := by
  have h := lbAfter_takeLast cap fs []
  simpa [takeLast_nil] using h

theorem updateLB_eq {F : Type} (cfg : VADConfig) (f : F) (s : VADProcessor F) :
    updateLookBackBuffer cfg f s =
      if s.vadState = VadState.silent then
        { s with lookBackBuffer := lbPush cfg.lookBackFrames s.lookBackBuffer f }
      else s := by
  obtain ⟨ses, ms, ctx, ab, sb, lb, vs, c, rc, st, fi⟩ := s
  by_cases hcap : cfg.lookBackFrames = 0 <;>
    by_cases hv : vs = VadState.silent <;>
      simp [updateLookBackBuffer, lbPush, hcap, hv]

theorem stepFrame_silent_nospeech {F : Type} (cfg : VADConfig) (p t : ℚ) (f : F)
    (s : VADProcessor F) (hv : s.vadState = VadState.silent)
    (hc : classifySpeechState cfg p ≠ SpeechState.speech) :
    stepFrame cfg (p, t, f) s =
      ({ s with lookBackBuffer := lbPush cfg.lookBackFrames s.lookBackBuffer f },
       [], []) := by
  obtain ⟨ses, ms, ctx, ab, sb, lb, vs, c, rc, st, fi⟩ := s
  simp only at hv
  subst hv
  simp [stepFrame, updateLB_eq, handleSpeechDetection, hc]

theorem stepFrame_silent_speech {F : Type} (cfg : VADConfig) (p t : ℚ) (f : F)
    (s : VADProcessor F) (hv : s.vadState = VadState.silent)
    (hc : classifySpeechState cfg p = SpeechState.speech) :
    stepFrame cfg (p, t, f) s =
      ({ s with lookBackBuffer := lbPush cfg.lookBackFrames s.lookBackBuffer f,
                vadState := VadState.detecting, speechFrameCount := 1,
                speechBuffer := [f] }, [], []) := by
  obtain ⟨ses, ms, ctx, ab, sb, lb, vs, c, rc, st, fi⟩ := s
  simp only at hv
  subst hv
  simp [stepFrame, updateLB_eq, handleSpeechDetection, hc]

theorem stepFrame_detecting_noconfirm {F : Type} (cfg : VADConfig) (p t : ℚ)
    (f : F) (s : VADProcessor F) (hv : s.vadState = VadState.detecting)
    (hc : classifySpeechState cfg p = SpeechState.speech)
    (hm : s.speechFrameCount + 1 < cfg.minSpeechFrames) :
    stepFrame cfg (p, t, f) s =
      ({ s with speechFrameCount := s.speechFrameCount + 1,
                speechBuffer := s.speechBuffer ++ [f] }, [], []) := by
  obtain ⟨ses, ms, ctx, ab, sb, lb, vs, c, rc, st, fi⟩ := s
  simp only at hv hm
  subst hv
  have hm2 : ¬ cfg.minSpeechFrames ≤ c + 1 := by omega
  simp [stepFrame, updateLB_eq, handleSpeechDetection, hc, hm2]

theorem stepFrame_detecting_confirm {F : Type} (cfg : VADConfig) (p t : ℚ)
    (f : F) (s : VADProcessor F) (hv : s.vadState = VadState.detecting)
    (hc : classifySpeechState cfg p = SpeechState.speech)
    (hm : cfg.minSpeechFrames ≤ s.speechFrameCount + 1) :
    stepFrame cfg (p, t, f) s =
      ({ s with vadState := VadState.speaking, speechStartTime := t,
                redemptionCounter := 0,
                speechFrameCount := s.speechFrameCount + 1,
                speechBuffer := [], lookBackBuffer := [] },
       s.lookBackBuffer ++ (s.speechBuffer ++ [f]), [VADEvent.speechStart]) := by
  obtain ⟨ses, ms, ctx, ab, sb, lb, vs, c, rc, st, fi⟩ := s
  simp only at hv hm
  subst hv
  simp [stepFrame, updateLB_eq, handleSpeechDetection, hc, hm]

theorem stepFrame_detecting_intermediate {F : Type} (cfg : VADConfig) (p t : ℚ)
    (f : F) (s : VADProcessor F) (hv : s.vadState = VadState.detecting)
    (hc : classifySpeechState cfg p = SpeechState.intermediate) :
    stepFrame cfg (p, t, f) s = (s, [], []) := by
  obtain ⟨ses, ms, ctx, ab, sb, lb, vs, c, rc, st, fi⟩ := s
  simp only at hv
  subst hv
  simp [stepFrame, updateLB_eq, handleSpeechDetection, hc]

theorem stepFrame_speaking_speech {F : Type} (cfg : VADConfig) (p t : ℚ) (f : F)
    (s : VADProcessor F) (hv : s.vadState = VadState.speaking)
    (hc : classifySpeechState cfg p = SpeechState.speech) :
    stepFrame cfg (p, t, f) s =
      ({ s with redemptionCounter := 0 }, [f], []) := by
  obtain ⟨ses, ms, ctx, ab, sb, lb, vs, c, rc, st, fi⟩ := s
  simp only at hv
  subst hv
  simp [stepFrame, updateLB_eq, handleSpeechDetection, hc]

theorem stepFrame_intermediate_end {F : Type} (cfg : VADConfig) (p t : ℚ)
    (f : F) (s : VADProcessor F) (hv : s.vadState = VadState.intermediate)
    (hc : classifySpeechState cfg p ≠ SpeechState.speech)
    (hr : cfg.redemptionFrames ≤ s.redemptionCounter + 1) :
    stepFrame cfg (p, t, f) s =
      (resetSpeechState s, [f],
       if (cfg.minSpeechFrames * 512 : ℚ) / 16000 ≤ (t - s.speechStartTime) / 1000
       then [VADEvent.speechEnd] else [VADEvent.misfire]) := by
  obtain ⟨ses, ms, ctx, ab, sb, lb, vs, c, rc, st, fi⟩ := s
  simp only at hv hr
  subst hv
  simp [stepFrame, updateLB_eq, handleSpeechDetection, hc, hr, endSpeechSegment,
    resetSpeechState]
  constructor <;> split <;> rfl

theorem runFrames_append {F : Type} (cfg : VADConfig) (a b : List (ℚ × ℚ × F)) :
    ∀ s : VADProcessor F,
      runFrames cfg (a ++ b) s =
        ((runFrames cfg b (runFrames cfg a s).1).1,
         (runFrames cfg a s).2.1 ++ (runFrames cfg b (runFrames cfg a s).1).2.1,
         (runFrames cfg a s).2.2 ++ (runFrames cfg b (runFrames cfg a s).1).2.2) := by
  induction a with
  | nil => intro s; simp [runFrames]
  | cons i a ih => intro s; simp [runFrames, ih]

theorem run_silent {F : Type} (cfg : VADConfig) (inps : List (ℚ × ℚ × F)) :
    ∀ s : VADProcessor F, s.vadState = VadState.silent →
      (∀ i ∈ inps, classifySpeechState cfg i.1 ≠ SpeechState.speech) →
      runFrames cfg inps s =
        ({ s with lookBackBuffer :=
            lbAfter cfg.lookBackFrames s.lookBackBuffer (inps.map frameOf) },
         [], []) := by
  induction inps with
  | nil =>
    intro s hv h
    obtain ⟨ses, ms, ctx, ab, sb, lb, vs, c, rc, st, fi⟩ := s
    simp [runFrames, lbAfter]
  | cons i inps ih =>
    intro s hv h
    obtain ⟨p, t, f⟩ := i
    have h1 := stepFrame_silent_nospeech cfg p t f s hv (h (p, t, f) (by simp))
    have hv2 : ({ s with
          lookBackBuffer := lbPush cfg.lookBackFrames s.lookBackBuffer f } :
        VADProcessor F).vadState = VadState.silent := by
      obtain ⟨ses, ms, ctx, ab, sb, lb, vs, c, rc, st, fi⟩ := s
      simpa using hv
    have h2 := ih { s with
        lookBackBuffer := lbPush cfg.lookBackFrames s.lookBackBuffer f } hv2
      (fun j hj => h j (by simp [hj]))
    simp only [runFrames, h1, h2]
    obtain ⟨ses, ms, ctx, ab, sb, lb, vs, c, rc, st, fi⟩ := s
    simp [lbAfter, frameOf]

theorem run_speaking {F : Type} (cfg : VADConfig) (inps : List (ℚ × ℚ × F)) :
    ∀ s : VADProcessor F, s.vadState = VadState.speaking →
      s.redemptionCounter = 0 →
      (∀ i ∈ inps, cfg.threshold ≤ i.1) →
      runFrames cfg inps s = (s, inps.map frameOf, []) := by
  induction inps with
  | nil => intro s hv hr h; simp [runFrames]
  | cons i inps ih =>
    intro s hv hr h
    obtain ⟨p, t, f⟩ := i
    have h1 := stepFrame_speaking_speech cfg p t f s hv
      (classify_speech cfg p (h (p, t, f) (by simp)))
    have hs : ({ s with redemptionCounter := 0 } : VADProcessor F) = s := by
      obtain ⟨ses, ms, ctx, ab, sb, lb, vs, c, rc, st, fi⟩ := s
      simp only at hr
      subst hr
      rfl
    rw [hs] at h1
    have h2 := ih s hv hr (fun j hj => h j (by simp [hj]))
    simp only [runFrames, h1, h2]
    simp [frameOf]

theorem run_detect_speak {F : Type} (cfg : VADConfig) (inps : List (ℚ × ℚ × F)) :
    ∀ s : VADProcessor F, s.vadState = VadState.detecting →
      1 ≤ s.speechFrameCount →
      (∀ i ∈ inps, cfg.threshold ≤ i.1) →
      cfg.minSpeechFrames ≤ s.speechFrameCount + inps.length →
      1 ≤ inps.length →
      (runFrames cfg inps s).2.1 =
          s.lookBackBuffer ++ s.speechBuffer ++ inps.map frameOf ∧
        (runFrames cfg inps s).2.2 = [VADEvent.speechStart] ∧
        (runFrames cfg inps s).1.vadState = VadState.speaking := by
  induction inps with
  | nil =>
    intro s hv hc h hm hpos
    simp at hpos
  | cons i inps ih =>
    intro s hv hc h hm hpos
    obtain ⟨p, t, f⟩ := i
    have hsp : classifySpeechState cfg p = SpeechState.speech :=
      classify_speech cfg p (h (p, t, f) (by simp))
    by_cases hconf : cfg.minSpeechFrames ≤ s.speechFrameCount + 1
    · -- this frame confirms speech
      have h1 := stepFrame_detecting_confirm cfg p t f s hv hsp hconf
      have h2 := run_speaking cfg inps
        { s with vadState := VadState.speaking, speechStartTime := t,
                 redemptionCounter := 0,
                 speechFrameCount := s.speechFrameCount + 1,
                 speechBuffer := [], lookBackBuffer := [] }
        (by obtain ⟨ses, ms, ctx, ab, sb, lb, vs, c, rc, st, fi⟩ := s; simp)
        (by obtain ⟨ses, ms, ctx, ab, sb, lb, vs, c, rc, st, fi⟩ := s; simp)
        (fun j hj => h j (by simp [hj]))
      simp only [runFrames, h1, h2]
      obtain ⟨ses, ms, ctx, ab, sb, lb, vs, c, rc, st, fi⟩ := s
      simp [frameOf]
    · -- not yet enough frames
      have hm2 : s.speechFrameCount + 1 < cfg.minSpeechFrames := by omega
      have h1 := stepFrame_detecting_noconfirm cfg p t f s hv hsp hm2
      have hpos2 : 1 ≤ inps.length := by
        simp at hm
        omega
      have h2 := ih { s with speechFrameCount := s.speechFrameCount + 1,
                             speechBuffer := s.speechBuffer ++ [f] }
        (by obtain ⟨ses, ms, ctx, ab, sb, lb, vs, c, rc, st, fi⟩ := s; simpa using hv)
        (by obtain ⟨ses, ms, ctx, ab, sb, lb, vs, c, rc, st, fi⟩ := s; simp)
        (fun j hj => h j (by simp [hj]))
        (by obtain ⟨ses, ms, ctx, ab, sb, lb, vs, c, rc, st, fi⟩ := s
            simp only at hm ⊢
            simp at hm ⊢
            omega)
        hpos2
      simp only [runFrames, h1]
      obtain ⟨ses, ms, ctx, ab, sb, lb, vs, c, rc, st, fi⟩ := s
      simp only at h2
      refine ⟨?_, ?_, ?_⟩
      · rw [h2.1]
        simp [frameOf]
      · rw [h2.2.1]
        simp
      · exact h2.2.2

theorem initVAD_vadState (F : Type) : (initVAD F).vadState = VadState.silent := rfl

theorem initVAD_lookBack (F : Type) : (initVAD F).lookBackBuffer = [] := rfl

theorem vad_run_main {F : Type} (cfg : VADConfig) (hwf : cfg.WF)
    (sil : List (ℚ × ℚ × F)) (i0 : ℚ × ℚ × F) (sp : List (ℚ × ℚ × F))
    (hsil : ∀ i ∈ sil, i.1 < cfg.negativeThreshold)
    (hi0 : cfg.threshold ≤ i0.1)
    (hsp : ∀ i ∈ sp, cfg.threshold ≤ i.1)
    (hlen : max cfg.minSpeechFrames 2 ≤ sp.length + 1) :
    (runFrames cfg (sil ++ i0 :: sp) (initVAD F)).2.1 =
        takeLast cfg.lookBackFrames (sil.map frameOf ++ [frameOf i0]) ++
          (frameOf i0 :: sp.map frameOf) ∧
      (runFrames cfg (sil ++ i0 :: sp) (initVAD F)).2.2 = [VADEvent.speechStart] ∧
      (runFrames cfg (sil ++ i0 :: sp) (initVAD F)).1.vadState = VadState.speaking := by
  obtain ⟨p0, t0, f0⟩ := i0
  have hA := run_silent cfg sil (initVAD F) (initVAD_vadState F)
    (fun i hi => classify_ne_speech cfg i.1 (lt_of_lt_of_le (hsil i hi) hwf.2.1))
  have h1 := stepFrame_silent_speech cfg p0 t0 f0 { initVAD F with lookBackBuffer := lbAfter cfg.lookBackFrames (initVAD F).lookBackBuffer (sil.map frameOf) } (by rfl) (classify_speech cfg p0 hi0)
  have hmle : cfg.minSpeechFrames ≤ 1 + sp.length := by
    have hm := le_trans (le_max_left cfg.minSpeechFrames 2) hlen
    omega
  have hsp1 : 1 ≤ sp.length := by
    have hm := le_trans (le_max_right cfg.minSpeechFrames 2) hlen
    omega
  have h2 := run_detect_speak cfg sp { initVAD F with lookBackBuffer := lbPush cfg.lookBackFrames (lbAfter cfg.lookBackFrames (initVAD F).lookBackBuffer (sil.map frameOf)) f0, vadState := VadState.detecting, speechFrameCount := 1, speechBuffer := [f0] } (by rfl) (by rfl) hsp (by simpa using hmle) hsp1
  rw [runFrames_append, hA]
  simp only [runFrames, frameOf]
  rw [h1]
  simp only []
  have hlb : lbPush cfg.lookBackFrames
      (lbAfter cfg.lookBackFrames (initVAD F).lookBackBuffer (sil.map frameOf)) f0 =
      takeLast cfg.lookBackFrames (sil.map frameOf ++ [f0]) := by
    rw [initVAD_lookBack, lbAfter_nil_start, lbPush_takeLast]
  refine ⟨?_, ?_, ?_⟩
  · rw [h2.1]
    simp only at hlb ⊢
    rw [hlb]
    simp [frameOf]
  · rw [h2.2.1]
    simp
  · exact h2.2.2

theorem durationCond (m : ℕ) (d : ℚ) :
    (m * 512 : ℚ) / 16000 ≤ d / 1000 ↔ (m * 32 : ℚ) ≤ d := by
  rw [div_le_div_iff (by norm_num) (by norm_num)]
  constructor <;> intro h <;> linarith

theorem endSpeech_fst {F : Type} (cfg : VADConfig) (now : ℚ)
    (s : VADProcessor F) : (endSpeechSegment cfg now s).1 = resetSpeechState s := by
  simp only [endSpeechSegment]
  split <;> rfl

theorem endSpeech_snd {F : Type} (cfg : VADConfig) (now : ℚ)
    (s : VADProcessor F) : (endSpeechSegment cfg now s).2 =
      if (cfg.minSpeechFrames * 512 : ℚ) / 16000 ≤ (now - s.speechStartTime) / 1000
      then [VADEvent.speechEnd] else [VADEvent.misfire] := by
  simp only [endSpeechSegment]
  split <;> rfl

theorem updateLB_preserves {F : Type} (cfg : VADConfig) (f : F)
    (s : VADProcessor F) :
    (updateLookBackBuffer cfg f s).session = s.session ∧
      (updateLookBackBuffer cfg f s).modelState = s.modelState ∧
      (updateLookBackBuffer cfg f s).context = s.context := by
  rw [updateLB_eq]
  split <;> exact ⟨rfl, rfl, rfl⟩

theorem bufStep_first {T : Type} (cfg : BufConfig) (a0 : ℚ × T) :
    bufStep cfg (initBuf T) a0 =
      (⟨[a0.2], some (a0.1 + cfg.durationMs), some a0.1, 1⟩, [],
       if cfg.maxBufferMs < a0.1 - a0.1 then [BufEvent.error] else []) := by
  simp [bufStep, initBuf, bufTransform]

theorem runBuf_gaps {T : Type} (cfg : BufConfig) (arrs : List (ℚ × T)) :
    ∀ (buf : List T) (t0 start : ℚ) (k : ℕ),
      gapsOk cfg.durationMs t0 arrs = true →
      runBuf cfg arrs ⟨buf, some (t0 + cfg.durationMs), some start, k⟩ =
        (⟨buf ++ arrs.map Prod.snd, some (lastTime t0 arrs + cfg.durationMs),
          some start, k + arrs.length⟩, [], errsFor cfg start arrs) := by
  induction arrs with
  | nil => intro buf t0 start k h; simp [runBuf, lastTime, errsFor]
  | cons a arrs ih =>
    intro buf t0 start k h
    simp only [gapsOk, Bool.and_eq_true, decide_eq_true_eq] at h
    have hnofire : ¬ (t0 + cfg.durationMs ≤ a.1) := by
      have h1 := h.1
      intro hcon
      linarith
    have hstep : bufStep cfg ⟨buf, some (t0 + cfg.durationMs), some start, k⟩ a =
        (⟨buf ++ [a.2], some (a.1 + cfg.durationMs), some start, k + 1⟩, [],
         if cfg.maxBufferMs < a.1 - start then [BufEvent.error] else []) := by
      simp [bufStep, bufTransform, hnofire]
    simp only [runBuf]
    rw [hstep]
    simp only []
    rw [ih (buf ++ [a.2]) a.1 start (k + 1) h.2]
    by_cases hc : cfg.maxBufferMs < a.1 - start <;>
      simp [lastTime, errsFor, List.filterMap_cons, hc] <;> omega

/-- Default configuration (all options omitted), used by concrete witnesses:
    threshold 1/2, negativeThreshold 7/20, minSpeechFrames 5,
    redemptionFrames 13, lookBackFrames 12. -/
def cfgDefault : VADConfig := mkVADConfig ⟨none, none, none, none⟩

/-- Configuration with 64 ms minimum speech and 64 ms lookback:
    minSpeechFrames 2, lookBackFrames 2. -/
def cfgSmall : VADConfig := mkVADConfig ⟨none, some 64, none, some 64⟩

/-- Configuration with 32 ms minimum speech: minSpeechFrames 1. -/
def cfgMin : VADConfig := mkVADConfig ⟨none, some 32, none, none⟩

theorem cfgDefault_eq : cfgDefault = ⟨1/2, 7/20, 5, 13, 12⟩ := by
  norm_num [cfgDefault, mkVADConfig, vadThr, jsRound, max_def, min_def] <;> decide

theorem cfgSmall_eq : cfgSmall = ⟨1/2, 7/20, 2, 13, 2⟩ := by
  norm_num [cfgSmall, mkVADConfig, vadThr, jsRound, max_def, min_def] <;> decide

theorem cfgMin_eq : cfgMin = ⟨1/2, 7/20, 1, 13, 12⟩ := by
  norm_num [cfgMin, mkVADConfig, vadThr, jsRound, max_def, min_def] <;> decide

/-- Claim C1, counterexample: with the default configuration, after one
    speech frame (probability 9/10) the machine is `detecting`; the next
    frame at probability 2/5 classifies as `intermediate`, yet the machine
    stays in `detecting` and keeps the SpeechAccumulator (the claim says it
    transitions to `silent` and discards it, as for non-speech). -/
theorem claim_C1_counterexample :
    classifySpeechState cfgDefault ((2:ℚ)/5) = SpeechState.intermediate ∧
      (runFrames cfgDefault [((9:ℚ)/10, 0, (0:ℕ)), ((2:ℚ)/5, 0, 1)]
        (initVAD ℕ)).1.vadState = VadState.detecting ∧
      (runFrames cfgDefault [((9:ℚ)/10, 0, (0:ℕ)), ((2:ℚ)/5, 0, 1)]
        (initVAD ℕ)).1.speechBuffer = [0] ∧
      (runFrames cfgDefault [((9:ℚ)/10, 0, (0:ℕ)), ((2:ℚ)/5, 0, 1)]
        (initVAD ℕ)).1.speechFrameCount = 1 := by
  rw [cfgDefault_eq]
  refine ⟨?_, ?_, ?_, ?_⟩ <;>
    norm_num +decide [runFrames, stepFrame, updateLookBackBuffer,
      handleSpeechDetection, classifySpeechState, initVAD, initializeVAD,
      construct, resetState, frameOf]

/-- Claim C1, amended: in the `detecting` state an `intermediate` frame
    (probability at or above negativeThreshold but below threshold) leaves
    the processor state completely unchanged — the state stays `detecting`,
    the counter is not incremented and the SpeechAccumulator is kept as is;
    no output is emitted and no event fires.  Only a `non-speech` frame
    resets to `silent` and discards the SpeechAccumulator. -/
theorem claim_C1_amended {F : Type} (cfg : VADConfig) (p t : ℚ) (f : F)
    (s : VADProcessor F) (hv : s.vadState = VadState.detecting)
    (h1 : cfg.negativeThreshold ≤ p) (h2 : p < cfg.threshold) :
    stepFrame cfg (p, t, f) s = (s, [], []) :=
  stepFrame_detecting_intermediate cfg p t f s hv
    (classify_intermediate cfg p h1 h2)

/-- Claim C1 witness: concrete instance of the amended claim. -/
theorem claim_C1_witness :
    stepFrame cfgDefault ((2:ℚ)/5, 0, (7:ℕ))
        { initVAD ℕ with vadState := VadState.detecting, speechFrameCount := 1, speechBuffer := [5] } =
      ({ initVAD ℕ with vadState := VadState.detecting, speechFrameCount := 1, speechBuffer := [5] }, [], []) :=
  claim_C1_amended cfgDefault ((2:ℚ)/5) 0 (7:ℕ) _ rfl
    (by rw [cfgDefault_eq]; norm_num) (by rw [cfgDefault_eq]; norm_num)

/-- Claim C3: for every input sequence whose probabilities stay strictly
    below negativeThreshold, the engine (started fresh) emits nothing and
    fires no events at all — in particular no speech-start and no
    speech-end. -/
theorem claim_C3 {F : Type} (cfg : VADConfig) (hwf : cfg.WF)
    (inps : List (ℚ × ℚ × F))
    (h : ∀ i ∈ inps, i.1 < cfg.negativeThreshold) :
    (runFrames cfg inps (initVAD F)).2.1 = [] ∧
      (runFrames cfg inps (initVAD F)).2.2 = [] := by
  have hA := run_silent cfg inps (initVAD F) (initVAD_vadState F)
    (fun i hi => classify_ne_speech cfg i.1 (lt_of_lt_of_le (h i hi) hwf.2.1))
  rw [hA]
  exact ⟨rfl, rfl⟩

/-- Claim C3 witness: concrete low-probability run emits nothing. -/
theorem claim_C3_witness :
    (runFrames cfgDefault [((1:ℚ)/10, 0, (0:ℕ)), ((1:ℚ)/10, 32, 1), ((3:ℚ)/10, 64, 2)]
        (initVAD ℕ)).2.1 = [] ∧
      (runFrames cfgDefault [((1:ℚ)/10, 0, (0:ℕ)), ((1:ℚ)/10, 32, 1), ((3:ℚ)/10, 64, 2)]
        (initVAD ℕ)).2.2 = [] :=
  claim_C3 cfgDefault (mkVADConfig_wf _) _ (by rw [cfgDefault_eq]; norm_num)

/-- Claim C2, counterexample: with minSpeechDurationMs = 32 the
    configuration has minSpeechFrames = 1, and the single-frame input at
    probability 9/10 ≥ threshold holds probability at or above threshold
    for (at least) minSpeechFrames consecutive frames; yet no speech-start
    event fires (the confirmation check only runs in the `detecting` state,
    one frame after the silent-to-detecting transition). -/
theorem claim_C2_counterexample :
    cfgMin.minSpeechFrames = 1 ∧
      cfgMin.threshold ≤ (9:ℚ)/10 ∧
      (runFrames cfgMin [((9:ℚ)/10, 0, (0:ℕ))] (initVAD ℕ)).2.2 = [] := by
  rw [cfgMin_eq]
  refine ⟨rfl, by norm_num, ?_⟩
  norm_num +decide [runFrames, stepFrame, updateLookBackBuffer,
    handleSpeechDetection, classifySpeechState, initVAD, initializeVAD,
    construct, resetState, frameOf]

/-- Claim C2, amended: for an input consisting of a silence prefix
    (probabilities strictly below negativeThreshold) followed by a run of
    frames with probability at or above threshold of length at least
    max(minSpeechFrames, 2), exactly one speech-start event fires; the
    emitted output is the lookback pre-roll followed by every frame of the
    speech run, and the pre-roll is exactly lookbackFrames frames whenever
    at least lookbackFrames frames were seen while the machine was silent
    (the silence prefix plus the transition frame). -/
theorem claim_C2_amended {F : Type} (cfg : VADConfig) (hwf : cfg.WF)
    (sil : List (ℚ × ℚ × F)) (i0 : ℚ × ℚ × F) (sp : List (ℚ × ℚ × F))
    (hsil : ∀ i ∈ sil, i.1 < cfg.negativeThreshold)
    (hi0 : cfg.threshold ≤ i0.1)
    (hsp : ∀ i ∈ sp, cfg.threshold ≤ i.1)
    (hlen : max cfg.minSpeechFrames 2 ≤ sp.length + 1) :
    (runFrames cfg (sil ++ i0 :: sp) (initVAD F)).2.2 = [VADEvent.speechStart] ∧
      (runFrames cfg (sil ++ i0 :: sp) (initVAD F)).2.1 =
        takeLast cfg.lookBackFrames (sil.map frameOf ++ [frameOf i0]) ++
          (frameOf i0 :: sp.map frameOf) ∧
      (cfg.lookBackFrames ≤ sil.length + 1 →
        (takeLast cfg.lookBackFrames (sil.map frameOf ++ [frameOf i0])).length =
          cfg.lookBackFrames) := by
  have h := vad_run_main cfg hwf sil i0 sp hsil hi0 hsp hlen
  refine ⟨h.2.1, h.1, ?_⟩
  intro hL
  rw [length_takeLast]
  simp only [List.length_append, List.length_map, List.length_singleton]
  omega

/-- Claim C2 witness: three silence frames then two speech frames with
    minSpeechFrames = 2 fire exactly one speech-start. -/
theorem claim_C2_witness :
    (runFrames cfgSmall
        ([((1:ℚ)/10, 0, (0:ℕ)), ((1:ℚ)/10, 0, 1), ((1:ℚ)/10, 0, 2)] ++
          ((9:ℚ)/10, 0, (3:ℕ)) :: [((9:ℚ)/10, 0, (4:ℕ))])
        (initVAD ℕ)).2.2 = [VADEvent.speechStart] :=
  (claim_C2_amended cfgSmall (mkVADConfig_wf _) _ _ _
    (by rw [cfgSmall_eq]; norm_num) (by rw [cfgSmall_eq]; norm_num)
    (by rw [cfgSmall_eq]; norm_num) (by rw [cfgSmall_eq]; norm_num)).1

/-- Claim C10: the frame that triggers the silent-to-detecting transition
    is pushed into the LookbackBuffer while the state is still `silent` and
    is also the first element of the SpeechAccumulator, so with
    lookbackFrames at least 1 the output emitted at speech confirmation
    contains that frame twice in a row: once as the newest element of the
    lookback portion and once as the head of the accumulator portion. -/
theorem claim_C10 {F : Type} (cfg : VADConfig) (hwf : cfg.WF)
    (sil : List (ℚ × ℚ × F)) (i0 : ℚ × ℚ × F) (sp : List (ℚ × ℚ × F))
    (hsil : ∀ i ∈ sil, i.1 < cfg.negativeThreshold)
    (hi0 : cfg.threshold ≤ i0.1)
    (hsp : ∀ i ∈ sp, cfg.threshold ≤ i.1)
    (hlen : max cfg.minSpeechFrames 2 ≤ sp.length + 1)
    (hL : 1 ≤ cfg.lookBackFrames) :
    (runFrames cfg (sil ++ i0 :: sp) (initVAD F)).2.1 =
      takeLast (cfg.lookBackFrames - 1) (sil.map frameOf) ++
        frameOf i0 :: frameOf i0 :: sp.map frameOf := by
  have h := vad_run_main cfg hwf sil i0 sp hsil hi0 hsp hlen
  rw [h.1, takeLast_append_singleton _ _ _ hL]
  simp

/-- Claim C10 witness: concrete run where the transition frame 3 appears
    twice in a row in the confirmation output. -/
theorem claim_C10_witness :
    (runFrames cfgSmall
        ([((1:ℚ)/10, 0, (0:ℕ)), ((1:ℚ)/10, 0, 1), ((1:ℚ)/10, 0, 2)] ++
          ((9:ℚ)/10, 0, (3:ℕ)) :: [((9:ℚ)/10, 0, (4:ℕ))])
        (initVAD ℕ)).2.1 =
      takeLast (cfgSmall.lookBackFrames - 1)
          ([((1:ℚ)/10, 0, (0:ℕ)), ((1:ℚ)/10, 0, 1), ((1:ℚ)/10, 0, 2)].map frameOf) ++
        (3:ℕ) :: 3 :: [((9:ℚ)/10, 0, (4:ℕ))].map frameOf :=
  claim_C10 cfgSmall (mkVADConfig_wf _) _ _ _
    (by rw [cfgSmall_eq]; norm_num) (by rw [cfgSmall_eq]; norm_num)
    (by rw [cfgSmall_eq]; norm_num) (by rw [cfgSmall_eq]; norm_num)
    (by rw [cfgSmall_eq]; norm_num)

/-- Claim C4: whenever a confirmed speech segment ends — by redemption
    expiry (a non-`speech` frame in the `intermediate` state pushing the
    redemption counter to redemptionFrames) or by stream finalization while
    mid-speech (`speaking` or `intermediate`) — exactly one of the
    speech-end or misfire events fires: speech-end exactly when the elapsed
    wall-clock speaking duration reaches minSpeechFrames*32 ms (the code's
    duration test in seconds is equivalent to that bound), misfire
    otherwise; in both cases the engine resets to `silent` and zeroes its
    counters (via `resetSpeechState`). -/
theorem claim_C4 {F : Type} (cfg : VADConfig) (p t now : ℚ) (f : F)
    (s u : VADProcessor F)
    (hv : s.vadState = VadState.intermediate)
    (hc : classifySpeechState cfg p ≠ SpeechState.speech)
    (hr : cfg.redemptionFrames ≤ s.redemptionCounter + 1)
    (hu : u.vadState = VadState.speaking ∨ u.vadState = VadState.intermediate) :
    ((stepFrame cfg (p, t, f) s).1 = resetSpeechState s ∧
      (stepFrame cfg (p, t, f) s).2.2 =
        (if (cfg.minSpeechFrames * 512 : ℚ) / 16000 ≤ (t - s.speechStartTime) / 1000
         then [VADEvent.speechEnd] else [VADEvent.misfire]) ∧
      ((cfg.minSpeechFrames * 512 : ℚ) / 16000 ≤ (t - s.speechStartTime) / 1000 ↔
        (cfg.minSpeechFrames * 32 : ℚ) ≤ t - s.speechStartTime) ∧
      (resetSpeechState s).vadState = VadState.silent ∧
      (resetSpeechState s).speechFrameCount = 0 ∧
      (resetSpeechState s).redemptionCounter = 0) ∧
    ((finalizeVAD cfg now u).1 = resetSpeechState u ∧
      (finalizeVAD cfg now u).2.2 =
        (if (cfg.minSpeechFrames * 512 : ℚ) / 16000 ≤ (now - u.speechStartTime) / 1000
         then [VADEvent.speechEnd] else [VADEvent.misfire]) ∧
      ((cfg.minSpeechFrames * 512 : ℚ) / 16000 ≤ (now - u.speechStartTime) / 1000 ↔
        (cfg.minSpeechFrames * 32 : ℚ) ≤ now - u.speechStartTime) ∧
      (resetSpeechState u).vadState = VadState.silent ∧
      (resetSpeechState u).speechFrameCount = 0 ∧
      (resetSpeechState u).redemptionCounter = 0) := by
  have hstep := stepFrame_intermediate_end cfg p t f s hv hc hr
  constructor
  · rw [hstep]
    refine ⟨rfl, rfl, durationCond _ _, ?_, ?_, ?_⟩ <;>
      obtain ⟨ses, ms, ctx, ab, sb, lb, vs, c, rc, st, fi⟩ := s <;> rfl
  · have hfin : finalizeVAD cfg now u =
        ((endSpeechSegment cfg now u).1, [], (endSpeechSegment cfg now u).2) := by
      simp only [finalizeVAD]
      rw [if_pos hu]
    rw [hfin, endSpeech_fst, endSpeech_snd]
    refine ⟨rfl, rfl, durationCond _ _, ?_, ?_, ?_⟩ <;>
      obtain ⟨ses, ms, ctx, ab, sb, lb, vs, c, rc, st, fi⟩ := u <;> rfl

/-- Claim C4 witness: a redemption expiry at 500 ms into a confirmed
    segment fires speech-end; the same engine finalized 100 ms in fires
    misfire.  Both reset to `silent`. -/
theorem claim_C4_witness :
    ((stepFrame cfgDefault ((1:ℚ)/10, 500, (9:ℕ))
        { initVAD ℕ with vadState := VadState.intermediate, redemptionCounter := 12, speechStartTime := 0 }).1 =
      resetSpeechState { initVAD ℕ with vadState := VadState.intermediate, redemptionCounter := 12, speechStartTime := 0 } ∧
      (stepFrame cfgDefault ((1:ℚ)/10, 500, (9:ℕ))
        { initVAD ℕ with vadState := VadState.intermediate, redemptionCounter := 12, speechStartTime := 0 }).2.2 =
        (if (cfgDefault.minSpeechFrames * 512 : ℚ) / 16000 ≤ ((500:ℚ) - 0) / 1000
         then [VADEvent.speechEnd] else [VADEvent.misfire]) ∧
      ((cfgDefault.minSpeechFrames * 512 : ℚ) / 16000 ≤ ((500:ℚ) - 0) / 1000 ↔
        (cfgDefault.minSpeechFrames * 32 : ℚ) ≤ (500:ℚ) - 0) ∧
      (resetSpeechState { initVAD ℕ with vadState := VadState.intermediate, redemptionCounter := 12, speechStartTime := 0 }).vadState = VadState.silent ∧
      (resetSpeechState { initVAD ℕ with vadState := VadState.intermediate, redemptionCounter := 12, speechStartTime := 0 }).speechFrameCount = 0 ∧
      (resetSpeechState { initVAD ℕ with vadState := VadState.intermediate, redemptionCounter := 12, speechStartTime := 0 }).redemptionCounter = 0) ∧
    ((finalizeVAD cfgDefault 100
        { initVAD ℕ with vadState := VadState.speaking, speechStartTime := 0 }).1 =
      resetSpeechState { initVAD ℕ with vadState := VadState.speaking, speechStartTime := 0 } ∧
      (finalizeVAD cfgDefault 100
        { initVAD ℕ with vadState := VadState.speaking, speechStartTime := 0 }).2.2 =
        (if (cfgDefault.minSpeechFrames * 512 : ℚ) / 16000 ≤ ((100:ℚ) - 0) / 1000
         then [VADEvent.speechEnd] else [VADEvent.misfire]) ∧
      ((cfgDefault.minSpeechFrames * 512 : ℚ) / 16000 ≤ ((100:ℚ) - 0) / 1000 ↔
        (cfgDefault.minSpeechFrames * 32 : ℚ) ≤ (100:ℚ) - 0) ∧
      (resetSpeechState { initVAD ℕ with vadState := VadState.speaking, speechStartTime := 0 }).vadState = VadState.silent ∧
      (resetSpeechState { initVAD ℕ with vadState := VadState.speaking, speechStartTime := 0 }).speechFrameCount = 0 ∧
      (resetSpeechState { initVAD ℕ with vadState := VadState.speaking, speechStartTime := 0 }).redemptionCounter = 0) :=
  claim_C4 cfgDefault ((1:ℚ)/10) 500 100 (9:ℕ) _ _ rfl
    (by rw [cfgDefault_eq]; norm_num [classifySpeechState]; decide)
    (by rw [cfgDefault_eq]; try norm_num) (Or.inl rfl)

/-- Claim C5: when the classifier call fails on a frame (returns no
    result), `detectSpeech` catches the failure inside that frame: it
    reports one error event, returns probability 0 — which classifies as
    non-speech in every constructor-produced configuration — and still
    updates the ContextBuffer to the trailing 64 samples of the contextual
    input; `processFrame` then continues through the normal state-machine
    path with probability 0, so no exception passes the frame boundary. -/
theorem claim_C5 (cfg : VADConfig) (hwf : cfg.WF)
    (classify : List ℚ → List ℚ → Option (ℚ × List ℚ)) (now : ℚ)
    (frame : List ℚ) (st : List ℚ) (s : VADProcessor (List ℚ))
    (hses : s.session = true) (hms : s.modelState = some st)
    (hfail : classify (s.context ++ frame) st = none) :
    detectSpeech classify frame (updateLookBackBuffer cfg frame s) =
        ({ updateLookBackBuffer cfg frame s with
            context := takeLast 64 (s.context ++ frame) }, 0, [VADEvent.error]) ∧
      classifySpeechState cfg 0 = SpeechState.nonSpeech ∧
      processFrame cfg classify now frame s =
        ((handleSpeechDetection cfg now 0 frame
            { updateLookBackBuffer cfg frame s with
              context := takeLast 64 (s.context ++ frame) }).1,
         (handleSpeechDetection cfg now 0 frame
            { updateLookBackBuffer cfg frame s with
              context := takeLast 64 (s.context ++ frame) }).2.1,
         VADEvent.error ::
           (handleSpeechDetection cfg now 0 frame
              { updateLookBackBuffer cfg frame s with
                context := takeLast 64 (s.context ++ frame) }).2.2) := by
  obtain ⟨hp1, hp2, hp3⟩ := updateLB_preserves cfg frame s
  have hdet : detectSpeech classify frame (updateLookBackBuffer cfg frame s) =
      ({ updateLookBackBuffer cfg frame s with
          context := takeLast 64 (s.context ++ frame) }, 0, [VADEvent.error]) := by
    simp only [detectSpeech, hp1, hses, hp2, hms, hp3, hfail]
  refine ⟨hdet, classify_nonSpeech cfg 0 hwf.1 hwf.2.1, ?_⟩
  simp only [processFrame, hdet]
  rfl

/-- Claim C5 witness: concrete failing classifier on a one-sample frame. -/
theorem claim_C5_witness :
    detectSpeech (fun _ _ => none) [(3:ℚ)]
        (updateLookBackBuffer cfgDefault [(3:ℚ)] (initVAD (List ℚ))) =
      ({ updateLookBackBuffer cfgDefault [(3:ℚ)] (initVAD (List ℚ)) with
          context := takeLast 64 ((initVAD (List ℚ)).context ++ [(3:ℚ)]) },
       0, [VADEvent.error]) ∧
      classifySpeechState cfgDefault 0 = SpeechState.nonSpeech :=
  have h := claim_C5 cfgDefault (mkVADConfig_wf _) (fun _ _ => none) 0 [(3:ℚ)]
    (List.replicate 256 0) (initVAD (List ℚ)) rfl rfl rfl
  ⟨h.1, h.2.1⟩

/-- Claim C8: for every configuration input the constructor clamps
    `threshold` into [0.01, 0.99] (0.5 when the option is omitted), derives
    `negativeThreshold = clamp(threshold - 0.15, 0.01, threshold - 0.01)`,
    and — being a total function — never throws on invalid values; the
    per-frame classification is three-tiered: probability at/above
    threshold is speech, strictly below negativeThreshold is non-speech,
    and anything in between is intermediate. -/
theorem claim_C8 (o : VADOptions) :
    ((1:ℚ)/100 ≤ (mkVADConfig o).threshold ∧
        (mkVADConfig o).threshold ≤ 99/100) ∧
      (o.threshold = none → (mkVADConfig o).threshold = 1/2) ∧
      (mkVADConfig o).negativeThreshold =
        clamp ((mkVADConfig o).threshold - 15/100) (1/100)
          ((mkVADConfig o).threshold - 1/100) ∧
      (∀ p : ℚ,
        ((mkVADConfig o).threshold ≤ p →
          classifySpeechState (mkVADConfig o) p = SpeechState.speech) ∧
        (p < (mkVADConfig o).negativeThreshold →
          classifySpeechState (mkVADConfig o) p = SpeechState.nonSpeech) ∧
        ((mkVADConfig o).negativeThreshold ≤ p → p < (mkVADConfig o).threshold →
          classifySpeechState (mkVADConfig o) p = SpeechState.intermediate)) := by
  refine ⟨⟨vadThr_lb o, ?_⟩, ?_, ?_, ?_⟩
  · show max (1/100) (min (99/100) (o.threshold.getD (1/2))) ≤ 99/100
    exact max_le (by norm_num) (min_le_left _ _)
  · intro hnone
    show max (1/100) (min (99/100) (o.threshold.getD (1/2))) = 1/2
    rw [hnone]
    norm_num [max_def, min_def]
  · show max (1/100) (min (vadThr o - 1/100) (vadThr o - 15/100)) =
      clamp (vadThr o - 15/100) (1/100) (vadThr o - 1/100)
    rw [clamp, min_comm]
  · intro p
    exact ⟨fun h => classify_speech _ p h,
      fun h => classify_nonSpeech _ p h (mkVADConfig_wf o).2.1,
      fun h1 h2 => classify_intermediate _ p h1 h2⟩

/-- Claim C8 witness: an out-of-range threshold option (5) is clamped to
    0.99 rather than raising, and probability 1 then classifies as speech. -/
theorem claim_C8_witness :
    (mkVADConfig ⟨some 5, none, none, none⟩).threshold ≤ 99/100 ∧
      classifySpeechState (mkVADConfig ⟨some 5, none, none, none⟩) 1 =
        SpeechState.speech :=
  ⟨(claim_C8 ⟨some 5, none, none, none⟩).1.2,
    ((claim_C8 ⟨some 5, none, none, none⟩).2.2.2 1).1
      (by norm_num [mkVADConfig, vadThr, max_def, min_def])⟩

/-- Claim C9: destroying an engine and re-initializing it yields internal
    state identical to a freshly constructed and initialized engine,
    whatever state it was in: session present, canonical zero ModelState
    (256 zeros), zeroed 64-sample context, `silent` state, zeroed counters
    and frame index, and empty audio, speech and lookback buffers. -/
theorem claim_C9 {F : Type} (s : VADProcessor F) :
    initializeVAD (destroy s) = initVAD F ∧
      (initVAD F).context = List.replicate 64 0 ∧
      (initVAD F).modelState = some (List.replicate 256 0) ∧
      (initVAD F).vadState = VadState.silent ∧
      (initVAD F).speechFrameCount = 0 ∧
      (initVAD F).redemptionCounter = 0 ∧
      (initVAD F).speechStartTime = 0 ∧
      (initVAD F).frameIndex = 0 ∧
      (initVAD F).audioBuffer = [] ∧
      (initVAD F).speechBuffer = [] ∧
      (initVAD F).lookBackBuffer = [] := by
  refine ⟨?_, rfl, rfl, rfl, rfl, rfl, rfl, rfl, rfl, rfl, rfl⟩
  obtain ⟨ses, ms, ctx, ab, sb, lb, vs, c, rc, st, fi⟩ := s
  rfl

/-- Claim C6: for N items each arriving strictly within `durationMs` of the
    previous one and then a qualifying gap (the armed timer's deadline
    passes with no further arrival), the pause buffer performs exactly one
    release — no output during the arrivals, then a single emitted array
    holding all N items in arrival order with one buffered event — and the
    buffer and timer are empty afterwards. -/
theorem claim_C6 {T : Type} (cfg : BufConfig) (a0 : ℚ × T)
    (rest : List (ℚ × T)) (tEnd : ℚ)
    (hgaps : gapsOk cfg.durationMs a0.1 rest = true)
    (hgap : lastTime a0.1 rest + cfg.durationMs ≤ tEnd) :
    (runBuf cfg (a0 :: rest) (initBuf T)).2.1 = [] ∧
      (bufEnd tEnd (runBuf cfg (a0 :: rest) (initBuf T)).1).2.1 =
        [a0.2 :: rest.map Prod.snd] ∧
      (bufEnd tEnd (runBuf cfg (a0 :: rest) (initBuf T)).1).2.2 =
        [BufEvent.buffered] ∧
      (bufEnd tEnd (runBuf cfg (a0 :: rest) (initBuf T)).1).1.buffer = [] ∧
      (bufEnd tEnd (runBuf cfg (a0 :: rest) (initBuf T)).1).1.pauseTimer = none := by
  have hrun : runBuf cfg (a0 :: rest) (initBuf T) =
      (⟨a0.2 :: rest.map Prod.snd, some (lastTime a0.1 rest + cfg.durationMs),
        some a0.1, 1 + rest.length⟩, [],
       (if cfg.maxBufferMs < a0.1 - a0.1 then [BufEvent.error] else []) ++
         errsFor cfg a0.1 rest) := by
    simp only [runBuf]
    rw [bufStep_first]
    simp only []
    rw [runBuf_gaps cfg rest [a0.2] a0.1 a0.1 1 hgaps]
    simp [lastTime]
    try omega
  have hend : bufEnd tEnd
      (⟨a0.2 :: rest.map Prod.snd, some (lastTime a0.1 rest + cfg.durationMs),
        some a0.1, 1 + rest.length⟩ : BufState T) =
      (⟨[], none, none, 0⟩, [a0.2 :: rest.map Prod.snd], [BufEvent.buffered]) := by
    simp only [bufEnd]
    rw [if_pos hgap]
    simp [releaseBuffer]
  rw [hrun]
  simp only []
  rw [hend]
  refine ⟨?_, ?_, ?_, ?_, ?_⟩ <;> trivial

/-- Claim C6 witness: three items at 0, 1000 and 2500 ms with a 2000 ms
    pause window, then a fire at 5000 ms: one release of [10, 20, 30]. -/
theorem claim_C6_witness :
    (runBuf (mkBufConfig (some 2) (some 60)) [((0:ℚ), (10:ℕ)), (1000, 20), (2500, 30)]
        (initBuf ℕ)).2.1 = [] ∧
      (bufEnd 5000 (runBuf (mkBufConfig (some 2) (some 60))
          [((0:ℚ), (10:ℕ)), (1000, 20), (2500, 30)] (initBuf ℕ)).1).2.1 =
        [(10:ℕ) :: [((1000:ℚ), (20:ℕ)), (2500, 30)].map Prod.snd] :=
  have h := claim_C6 (mkBufConfig (some 2) (some 60)) ((0:ℚ), (10:ℕ))
    [((1000:ℚ), (20:ℕ)), (2500, 30)] 5000
    (by norm_num [gapsOk, mkBufConfig])
    (by norm_num [lastTime, mkBufConfig])
  ⟨h.1, h.2.1⟩

/-- Claim C7: when arrivals keep coming (each strictly within `durationMs`
    of the previous, so no release intervenes) and some arrival is more
    than `maxBufferMs` after the buffer's start timestamp, at least one
    overflow error fires while the buffer keeps accumulating — it is not
    cleared and nothing is emitted early — and on stream end the flush
    releases every accumulated item in order rather than discarding. -/
theorem claim_C7 {T : Type} (cfg : BufConfig) (a0 : ℚ × T)
    (rest : List (ℚ × T))
    (hgaps : gapsOk cfg.durationMs a0.1 rest = true)
    (hover : ∃ a ∈ rest, cfg.maxBufferMs < a.1 - a0.1) :
    BufEvent.error ∈ (runBuf cfg (a0 :: rest) (initBuf T)).2.2 ∧
      (runBuf cfg (a0 :: rest) (initBuf T)).1.buffer =
        a0.2 :: rest.map Prod.snd ∧
      (runBuf cfg (a0 :: rest) (initBuf T)).2.1 = [] ∧
      (bufFlush (runBuf cfg (a0 :: rest) (initBuf T)).1).2.1 =
        [a0.2 :: rest.map Prod.snd] ∧
      (bufFlush (runBuf cfg (a0 :: rest) (initBuf T)).1).1.buffer = [] ∧
      (bufFlush (runBuf cfg (a0 :: rest) (initBuf T)).1).2.2 =
        [BufEvent.buffered] := by
  have hrun : runBuf cfg (a0 :: rest) (initBuf T) =
      (⟨a0.2 :: rest.map Prod.snd, some (lastTime a0.1 rest + cfg.durationMs),
        some a0.1, 1 + rest.length⟩, [],
       (if cfg.maxBufferMs < a0.1 - a0.1 then [BufEvent.error] else []) ++
         errsFor cfg a0.1 rest) := by
    simp only [runBuf]
    rw [bufStep_first]
    simp only []
    rw [runBuf_gaps cfg rest [a0.2] a0.1 a0.1 1 hgaps]
    simp [lastTime]
    try omega
  rw [hrun]
  have hmem : BufEvent.error ∈ errsFor cfg a0.1 rest := by
    obtain ⟨a, ha, hc⟩ := hover
    refine List.mem_filterMap.mpr ⟨a, ha, ?_⟩
    rw [if_pos hc]
  refine ⟨List.mem_append_right _ hmem, by trivial, by trivial, ?_, ?_, ?_⟩ <;>
    simp [bufFlush, releaseBuffer]

/-- Claim C7 witness: window 2000 ms, ceiling 1000 ms, arrivals at 0, 900
    and 1800 ms: an overflow error fires, yet the flush still releases
    [1, 2, 3]. -/
theorem claim_C7_witness :
    BufEvent.error ∈ (runBuf (mkBufConfig (some 2) (some 1))
        [((0:ℚ), (1:ℕ)), (900, 2), (1800, 3)] (initBuf ℕ)).2.2 ∧
      (bufFlush (runBuf (mkBufConfig (some 2) (some 1))
          [((0:ℚ), (1:ℕ)), (900, 2), (1800, 3)] (initBuf ℕ)).1).2.1 =
        [(1:ℕ) :: [((900:ℚ), (2:ℕ)), (1800, 3)].map Prod.snd] :=
  have h := claim_C7 (mkBufConfig (some 2) (some 1)) ((0:ℚ), (1:ℕ))
    [((900:ℚ), (2:ℕ)), (1800, 3)]
    (by norm_num [gapsOk, mkBufConfig])
    ⟨((1800:ℚ), (3:ℕ)), by simp, by norm_num [mkBufConfig]⟩
  ⟨h.1, h.2.2.2.1⟩
